import Mathlib

/-!
Verification of the rglua string-marshalling and stack-inspection core
(`src/util/mod.rs`), shallowly embedded at the byte level.

Host and native strings are modelled as `List Nat` of byte values.
The scripting-engine bindings (`rglua::lua`) are external collaborators;
their consumed contract is modelled from the spec (section 6).
-/

/-- Bytes of an ASCII string literal (each char below 128, so the UTF-8
bytes coincide with the code points). Used to spell out byte constants. -/
def asciiBytes (s : String) : List Nat :=
  s.toList.map Char.toNat

/-- One step of the standard UTF-8 acceptor (the validity check behind
Rust's `str::from_utf8` used by `CStr::to_str`). The state
`(pending, lo, hi)` means: `pending` continuation bytes are still owed and
the next byte must lie in `[lo, hi]`; `(0, _, _)` is the start state. -/
def utf8Accept : List Nat → Nat × Nat × Nat → Bool
  | [], st => st.1 == 0
  | b :: r, (0, _, _) =>
    if b ≤ 0x7F then utf8Accept r (0, 0, 0)
    else if 0xC2 ≤ b ∧ b ≤ 0xDF then utf8Accept r (1, 0x80, 0xBF)
    else if b = 0xE0 then utf8Accept r (2, 0xA0, 0xBF)
    else if (0xE1 ≤ b ∧ b ≤ 0xEC) ∨ b = 0xEE ∨ b = 0xEF then utf8Accept r (2, 0x80, 0xBF)
    else if b = 0xED then utf8Accept r (2, 0x80, 0x9F)
    else if b = 0xF0 then utf8Accept r (3, 0x90, 0xBF)
    else if 0xF1 ≤ b ∧ b ≤ 0xF3 then utf8Accept r (3, 0x80, 0xBF)
    else if b = 0xF4 then utf8Accept r (3, 0x80, 0x8F)
    else false
  | b :: r, (n + 1, lo, hi) =>
    if lo ≤ b ∧ b ≤ hi then utf8Accept r (n, 0x80, 0xBF) else false

/-- A byte sequence is valid UTF-8. -/
def validUtf8 (l : List Nat) : Bool :=
  utf8Accept l (0, 0, 0)

/-- Position of the first null byte, if any (the scan performed by
`std::ffi::CString::new`). -/
def nulPosition : List Nat → Option Nat
  | [] => none
  | b :: r => if b = 0 then some 0 else (nulPosition r).map (· + 1)

/-- `std::ffi::CString::new` on the bytes of a host string: rejects interior
null bytes, carrying the nul position and the original bytes (Rust's
`NulError`); on success appends the terminating null byte. This is the
expression arm of both `try_cstr!` and `cstr!`
(src/util/mod.rs lines 46-48 and 23-25). -/
def cstring_new (s : List Nat) : Except (Nat × List Nat) (List Nat) :=
  match nulPosition s with
  | some i => Except.error (i, s)
  | none => Except.ok (s ++ [0])

/-- The literal arm of `cstr!` / `try_cstr!` (src/util/mod.rs lines 20-22
and 43-45): `concat!` appends one null byte to the literal's bytes; the
handle points at the first byte of the result. -/
def cstr_literal (s : List Nat) : List Nat :=
  s ++ [0]

/-- Panic message of the `cstr!` expression arm (the `.expect` call at
src/util/mod.rs line 24). Built with `Char.ofNat 39` for the quote char. -/
def cstrPanicMsg : String :=
  "Couldn" ++ String.singleton (Char.ofNat 39) ++ "t make CString from rust string"

/-- Panic message of `rstr!` (the `.expect` call at src/util/mod.rs line 65). -/
def rstrPanicMsg : String :=
  "Couldn" ++ String.singleton (Char.ofNat 39) ++ "t unwrap CString"

/-- `Result::expect(msg)`: passes a success through and turns a failure into
a process abort carrying the descriptive message (the abort is modelled as
the error of an `Except String`). -/
def expectE (msg : String) : Except ε α → Except String α
  | Except.ok a => Except.ok a
  | Except.error _ => Except.error msg

/-- The `cstr!` expression arm (src/util/mod.rs lines 23-25):
`CString::new(s).expect("...")`. -/
def cstr_expr (s : List Nat) : Except String (List Nat) :=
  expectE cstrPanicMsg (cstring_new s)

/-- `std::ffi::CStr::from_ptr`: the byte run at the handle up to (and not
including) the terminating null byte. The model takes the bytes reachable
from the pointer; the caller's validity precondition (spec section 9) is
implicit in passing them at all. -/
def cstrFromPtr (bytes : List Nat) : List Nat :=
  bytes.takeWhile (fun b => b != 0)

/-- `CStr::to_str`: UTF-8 validation; the bytes are returned unchanged when
valid (Rust returns the same bytes viewed as `&str`). -/
def cstr_to_str (b : List Nat) : Except Unit (List Nat) :=
  if validUtf8 b then Except.ok b else Except.error ()

/-- `try_rstr!` (src/util/mod.rs lines 78-84): `CStr::from_ptr` then
`to_str`, returning the fallible result. -/
def try_rstr_fn (bytes : List Nat) : Except Unit (List Nat) :=
  cstr_to_str (cstrFromPtr bytes)

/-- `rstr!` (src/util/mod.rs lines 61-67): `CStr::from_ptr` then
`to_str().expect("...")`. -/
def rstr_fn (bytes : List Nat) : Except String (List Nat) :=
  expectE rstrPanicMsg (cstr_to_str (cstrFromPtr bytes))

theorem nulPosition_eq_none_of_not_mem (s : List Nat) (h : (0 : Nat) ∉ s) :
    nulPosition s = none := by
  induction s with
  | nil => rfl
  | cons a t ih =>
    have ha : a ≠ 0 := by
      intro hz; exact h (hz ▸ List.mem_cons_self a t)
    have ht : (0 : Nat) ∉ t := fun hm => h (List.mem_cons_of_mem a hm)
    simp [nulPosition, ha, ih ht]

theorem nulPosition_isSome_of_mem (s : List Nat) (h : (0 : Nat) ∈ s) :
    ∃ i, nulPosition s = some i := by
  induction s with
  | nil => exact absurd h (List.not_mem_nil 0)
  | cons a t ih =>
    by_cases ha : a = 0
    · exact ⟨0, by simp [nulPosition, ha]⟩
    · have ht : (0 : Nat) ∈ t := by
        rcases List.mem_cons.mp h with h0 | h0
        · exact absurd h0.symm ha
        · exact h0
      rcases ih ht with ⟨i, hi⟩
      exact ⟨i + 1, by simp [nulPosition, ha, hi]⟩

theorem takeWhile_append_nul (s : List Nat) (h : (0 : Nat) ∉ s) :
    (s ++ [0]).takeWhile (fun b => b != 0) = s := by
  induction s with
  | nil => simp [List.takeWhile]
  | cons a t ih =>
    have ha : a ≠ 0 := by
      intro hz; exact h (hz ▸ List.mem_cons_self a t)
    have ht : (0 : Nat) ∉ t := fun hm => h (List.mem_cons_of_mem a hm)
    have ha2 : (a != 0) = true := bne_iff_ne.mpr ha
    simp [List.takeWhile, ha2, ih ht]

/-- C1: for a host string with no interior null byte and valid UTF-8, the
value-to-native conversion (`try_cstr!` / `cstr!` expression form) succeeds
with the bytes plus a terminating null, and reading that handle back with
`rstr!` yields exactly the original bytes. -/
theorem cstr_rstr_roundTrip (s : List Nat) (hnul : (0 : Nat) ∉ s)
    (hutf : validUtf8 s = true) :
    cstring_new s = Except.ok (s ++ [0]) ∧
    rstr_fn (s ++ [0]) = Except.ok s := by
  constructor
  · simp [cstring_new, nulPosition_eq_none_of_not_mem s hnul]
  · simp [rstr_fn, cstrFromPtr, takeWhile_append_nul s hnul, cstr_to_str, hutf, expectE]

/-- Witness for C1 at the concrete bytes of "hi". -/
theorem cstr_rstr_roundTrip_witness :
    cstring_new [104, 105] = Except.ok [104, 105, 0] ∧
    rstr_fn [104, 105, 0] = Except.ok [104, 105] := by
  have h := cstr_rstr_roundTrip [104, 105] (by decide) (by decide)
  exact ⟨h.1, by simpa using h.2⟩

/-- C3: for every host string containing an interior null byte, the fallible
value-to-native conversion (`try_cstr!` expression form) returns a failure
carrying the nul position and the untouched original bytes; no
null-terminated buffer is produced. -/
theorem try_cstr_embedded_nul (s : List Nat) (h : (0 : Nat) ∈ s) :
    ∃ i, cstring_new s = Except.error (i, s) := by
  rcases nulPosition_isSome_of_mem s h with ⟨i, hi⟩
  exact ⟨i, by simp [cstring_new, hi]⟩

/-- Witness for C3 at the concrete bytes 104, 0, 105. -/
theorem try_cstr_embedded_nul_witness :
    ∃ i, cstring_new [104, 0, 105] = Except.error (i, [104, 0, 105]) :=
  try_cstr_embedded_nul [104, 0, 105] (by decide)

theorem cstring_new_ok_of_not_mem (s : List Nat) (h : (0 : Nat) ∉ s) :
    cstring_new s = Except.ok (s ++ [0]) := by
  simp [cstring_new, nulPosition_eq_none_of_not_mem s h]

/-- C4: the infallible conversions are thin wrappers over their fallible
pairs. `cstr!` (expression form) aborts with its descriptive message exactly
when `CString::new` fails and otherwise returns the same buffer; `rstr!`
aborts with its descriptive message exactly when `try_rstr!` fails and
otherwise returns the same decoded bytes. Neither adds validation of its
own: success values coincide with the fallible results. -/
theorem infallible_wraps_fallible (s b : List Nat) :
    ((cstring_new s).isOk = false → cstr_expr s = Except.error cstrPanicMsg) ∧
    (∀ v, cstring_new s = Except.ok v → cstr_expr s = Except.ok v) ∧
    ((try_rstr_fn b).isOk = false → rstr_fn b = Except.error rstrPanicMsg) ∧
    (∀ v, try_rstr_fn b = Except.ok v → rstr_fn b = Except.ok v) := by
  refine ⟨?_, ?_, ?_, ?_⟩
  · intro h
    cases hc : cstring_new s with
    | ok v => rw [hc] at h; simp [Except.isOk, Except.toBool] at h
    | error e => simp [cstr_expr, expectE, hc]
  · intro v hv
    simp [cstr_expr, expectE, hv]
  · intro h
    cases hc : try_rstr_fn b with
    | ok v => rw [hc] at h; simp [Except.isOk, Except.toBool] at h
    | error e =>
      have hc2 : cstr_to_str (cstrFromPtr b) = Except.error e := hc
      simp [rstr_fn, hc2, expectE]
  · intro v hv
    have hv2 : cstr_to_str (cstrFromPtr b) = Except.ok v := hv
    simp [rstr_fn, hv2, expectE]

/-- Witness for C4: the failing and succeeding branches at concrete bytes
(an embedded null for the native direction, a non-UTF-8 byte for the text
direction). -/
theorem infallible_wraps_fallible_witness :
    cstr_expr [0] = Except.error cstrPanicMsg ∧
    cstr_expr [104] = Except.ok [104, 0] ∧
    rstr_fn [255, 0] = Except.error rstrPanicMsg ∧
    rstr_fn [104, 0] = Except.ok [104] := by
  refine ⟨(infallible_wraps_fallible [0] [255, 0]).1 (by rfl),
    (infallible_wraps_fallible [104] [255, 0]).2.1 [104, 0] (by rfl),
    (infallible_wraps_fallible [0] [255, 0]).2.2.1 (by rfl),
    (infallible_wraps_fallible [0] [104, 0]).2.2.2 [104] (by rfl)⟩

/-- C6: `cstr!` on the literal "Hello world!" yields the literal's bytes
with one terminating null byte appended, so the handle's first byte is the
first byte of the raw byte string (72, the letter H). -/
theorem cstr_literal_hello :
    cstr_literal (asciiBytes "Hello world!") = asciiBytes "Hello world!" ++ [0] ∧
    (cstr_literal (asciiBytes "Hello world!")).head? = some 72 ∧
    (asciiBytes "Hello world!").head? = some 72 := by
  refine ⟨rfl, ?_, ?_⟩ <;> decide

/-- Modelled from the spec: the engine's closed type-tag enumeration
(`rglua::lua::Type`, a binding declaration outside the core), "including at
least Number, String, Boolean, Nil, None, and a catch-all"; the catch-all
tags are the ones the inspector renders by raw address. -/
inductive LuaType where
  | none | nil | bool | lightuserdata | number | string
  | table | func | userdata | thread
deriving DecidableEq

/-- The catch-all tags: every tag the inspector gives no special rendering. -/
inductive OtherTag where
  | lightuserdata | table | func | userdata | thread
deriving DecidableEq

/-- Tag of a catch-all slot, always outside the specially rendered tags. -/
def OtherTag.toLuaType : OtherTag → LuaType
  | .lightuserdata => .lightuserdata
  | .table => .table
  | .func => .func
  | .userdata => .userdata
  | .thread => .thread

/-- Modelled from the spec: one stack slot of the engine's value stack, the
closed set of variants observable through the accessor contract. A number is
modelled by an integer (the host renders integral doubles the same way); a
string slot carries the engine string's bytes; a boolean slot carries the
raw integer the boolean accessor returns; a catch-all slot carries its tag and
raw address. -/
inductive Slot where
  | num (n : Int)
  | str (bytes : List Nat)
  | boolean (raw : Int)
  | nil
  | raw (t : OtherTag) (addr : Nat)

/-- Modelled from the spec: the observable stack of one engine execution
context, bottom (index 1) first. -/
abbrev LuaState := List Slot

/-- `lua_gettop`: the index of the top slot, i.e. the slot count. -/
def lua_gettop (l : LuaState) : Nat :=
  List.length l

/-- The slot at 1-based index `i`, when present. -/
def stackSlot (l : LuaState) (i : Nat) : Option Slot :=
  List.get? l (i - 1)

/-- `lua_type`: type tag of the slot at `i`; None for an absent index. -/
def lua_type (l : LuaState) (i : Nat) : LuaType :=
  match stackSlot l i with
  | Option.none => LuaType.none
  | some (Slot.num _) => LuaType.number
  | some (Slot.str _) => LuaType.string
  | some (Slot.boolean _) => LuaType.bool
  | some Slot.nil => LuaType.nil
  | some (Slot.raw t _) => t.toLuaType

/-- The engine's display name for each tag (Lua 5.1 `lua_typename` table:
both userdata tags print "userdata", an absent index prints "no value"),
as ASCII bytes. -/
def typeNameBytes : LuaType → List Nat
  | LuaType.none => asciiBytes "no value"
  | LuaType.nil => asciiBytes "nil"
  | LuaType.bool => asciiBytes "boolean"
  | LuaType.lightuserdata => asciiBytes "userdata"
  | LuaType.number => asciiBytes "number"
  | LuaType.string => asciiBytes "string"
  | LuaType.table => asciiBytes "table"
  | LuaType.func => asciiBytes "function"
  | LuaType.userdata => asciiBytes "userdata"
  | LuaType.thread => asciiBytes "thread"

/-- `luaL_typename`: display name of the slot at `i`. -/
def luaL_typename (l : LuaState) (i : Nat) : List Nat :=
  typeNameBytes (lua_type l i)

/-- `lua_tonumber` at a number slot (only queried there by the inspector). -/
def lua_tonumber (l : LuaState) (i : Nat) : Int :=
  match stackSlot l i with
  | some (Slot.num n) => n
  | _ => 0

/-- `lua_tostring` at a string slot: the engine string's bytes (the handle
the inspector immediately reads back with `rstr!`). -/
def lua_tostring (l : LuaState) (i : Nat) : List Nat :=
  match stackSlot l i with
  | some (Slot.str b) => b
  | _ => []

/-- `lua_toboolean`: the raw integer the engine returns for the slot. -/
def lua_toboolean (l : LuaState) (i : Nat) : Int :=
  match stackSlot l i with
  | some (Slot.boolean n) => n
  | _ => 0

/-- `lua_topointer`: the raw address of a catch-all slot. -/
def lua_topointer (l : LuaState) (i : Nat) : Nat :=
  match stackSlot l i with
  | some (Slot.raw _ a) => a
  | _ => 0

/-- Byte of one lowercase hex digit, as Rust's pointer formatting emits. -/
def hexDigitByte (n : Nat) : Nat :=
  if n < 10 then 48 + n else 87 + n

/-- Hex digits of `n`, most significant first; empty for 0. -/
def toHex : Nat → List Nat
  | 0 => []
  | n + 1 => toHex ((n + 1) / 16) ++ [hexDigitByte ((n + 1) % 16)]
decreasing_by exact Nat.div_lt_self (Nat.succ_pos n) (by decide)

/-- Rust's `{:p}` rendering of an address: `0x` then at least one lowercase
hex digit. -/
def fmtPointer (a : Nat) : List Nat :=
  [48, 120] ++ (if a = 0 then [48] else toHex a)

/-- The slot-line head written at src/util/mod.rs line 153:
`[<i>] <quote><type-name><quote> = ` (byte 39 is the quote char; the
`rstr!` around `luaL_typename` is the identity on these ASCII names, see
`rstr_typename_ok`). -/
def slotLabel (l : LuaState) (i : Nat) : List Nat :=
  asciiBytes ("[" ++ toString i ++ "] ") ++ [39] ++ luaL_typename l i
    ++ [39] ++ asciiBytes " = "

/-- The value text for slot `i`, following the `match lua_type` dispatch at
src/util/mod.rs lines 154-168; `Option.none` is the panic of the `rstr!`
arm on a non-UTF-8 engine string. -/
def valueText (l : LuaState) (i : Nat) : Option (List Nat) :=
  match lua_type l i with
  | LuaType.number => some (asciiBytes (toString (lua_tonumber l i)))
  | LuaType.string =>
    match rstr_fn (lua_tostring l i) with
    | Except.ok b => some b
    | Except.error _ => Option.none
  | LuaType.bool =>
    some (if lua_toboolean l i == 1 then asciiBytes "true" else asciiBytes "false")
  | LuaType.nil => some (asciiBytes "nil")
  | LuaType.none => some (asciiBytes "none")
  | _ => some (fmtPointer (lua_topointer l i))

/-- `fmt::Write` for the in-memory growable string: appends and always
reports success (the `write!` calls in `dump_stack` target a `String`). -/
def writeBytes (buf s : List Nat) : List Nat × Except Unit Unit :=
  (buf ++ s, Except.ok ())

/-- The `for i in 1..=top` loop of `dump_stack`: per index, the head write
(whose result the source discards), then the dispatched value write whose
result the `?` operator propagates. `Option.none` models the `rstr!` panic
inside the string arm. -/
def dumpFrom (l : LuaState) (buf : List Nat) : List Nat → Option (Except Unit (List Nat))
  | [] => some (Except.ok buf)
  | i :: rest =>
    let w1 := writeBytes buf (slotLabel l i)
    match valueText l i with
    | Option.none => Option.none
    | some v =>
      let w2 := writeBytes w1.1 v
      match w2.2 with
      | Except.error e => some (Except.error e)
      | Except.ok _ => dumpFrom l w2.1 rest

/-- `dump_stack` (src/util/mod.rs lines 145-173): renders slots 1 through
the current top into one byte buffer. -/
def dump_stack (l : LuaState) : Option (Except Unit (List Nat)) :=
  dumpFrom l [] (List.range' 1 (lua_gettop l))

/-- The source wraps `luaL_typename` in `rstr!`; on the engine's ASCII type
names this is the identity, so `slotLabel` uses the names directly. -/
theorem rstr_typename_ok (t : LuaType) :
    rstr_fn (typeNameBytes t) = Except.ok (typeNameBytes t) := by
  cases t <;> rfl

/-- The rendering the spec expects for one slot: index, quoted type name,
and value text (byte 39 is the quote char). -/
def lineOf (i : Nat) (tn v : String) : List Nat :=
  asciiBytes ("[" ++ toString i ++ "] ") ++ [39] ++ asciiBytes tn ++ [39]
    ++ asciiBytes (" = " ++ v)

/-- C2 (divergence witness): on the stack holding the number 42, the string
"hi" and the boolean true, `dump_stack` produces the three slot renderings
concatenated with NO line break between or after them, which differs from
the three-line form (line-feed byte 10 after each slot) that the function's
own doc comment and the spec describe. -/
theorem dump_stack_concrete_no_breaks :
    dump_stack [Slot.num 42, Slot.str (asciiBytes "hi"), Slot.boolean 1]
      = some (Except.ok
          (lineOf 1 "number" "42" ++ lineOf 2 "string" "hi" ++ lineOf 3 "boolean" "true")) ∧
    lineOf 1 "number" "42" ++ lineOf 2 "string" "hi" ++ lineOf 3 "boolean" "true"
      ≠ lineOf 1 "number" "42" ++ [10] ++ lineOf 2 "string" "hi" ++ [10]
          ++ lineOf 3 "boolean" "true" ++ [10] := by
  exact ⟨rfl, by decide⟩

/-- C5: on a stack whose top is zero (no elements), `dump_stack` succeeds
with the empty text block. -/
theorem dump_stack_empty (l : LuaState) (h : lua_gettop l = 0) :
    dump_stack l = some (Except.ok []) := by
  simp [dump_stack, h, dumpFrom]

/-- Witness for C5 at the empty stack. -/
theorem dump_stack_empty_witness :
    dump_stack ([] : LuaState) = some (Except.ok []) :=
  dump_stack_empty [] rfl

/-- C7: a slot whose type tag is Nil renders the value text `nil`, and a
queried index whose tag is None (absent, e.g. beyond the top) renders the
value text `none`. -/
theorem nil_none_value_render (l : LuaState) (i : Nat) :
    (lua_type l i = LuaType.nil → valueText l i = some (asciiBytes "nil")) ∧
    (lua_type l i = LuaType.none → valueText l i = some (asciiBytes "none")) := by
  constructor <;> intro h <;> simp [valueText, h]

/-- Witness for C7: a one-slot stack holding nil, queried at index 1 and at
the absent index 2. -/
theorem nil_none_value_render_witness :
    valueText [Slot.nil] 1 = some (asciiBytes "nil") ∧
    valueText [Slot.nil] 2 = some (asciiBytes "none") :=
  ⟨(nil_none_value_render [Slot.nil] 1).1 rfl,
   (nil_none_value_render [Slot.nil] 2).2 rfl⟩

/-- A byte is a lowercase hex digit (0-9 or a-f). -/
def isHexDigitByte (d : Nat) : Bool :=
  (48 ≤ d && d ≤ 57) || (97 ≤ d && d ≤ 102)

theorem toHex_mem_hexDigitByte (n : Nat) :
    ∀ d ∈ toHex n, ∃ k, k < 16 ∧ d = hexDigitByte k := by
  induction n using Nat.strong_induction_on with
  | _ n ih =>
    match n with
    | 0 => simp [toHex]
    | m + 1 =>
      intro d hd
      rw [toHex] at hd
      rcases List.mem_append.mp hd with h1 | h2
      · exact ih ((m + 1) / 16) (Nat.div_lt_self (Nat.succ_pos m) (by decide)) d h1
      · rw [List.mem_singleton] at h2
        exact ⟨(m + 1) % 16, Nat.mod_lt _ (by decide), h2⟩

theorem hexDigitByte_isHex : ∀ k, k < 16 → isHexDigitByte (hexDigitByte k) = true := by
  decide

theorem fmtPointer_shape (a : Nat) :
    ∃ ds, fmtPointer a = [48, 120] ++ ds ∧ ds ≠ [] ∧
      ∀ d ∈ ds, isHexDigitByte d = true := by
  by_cases ha : a = 0
  · exact ⟨[48], by simp [fmtPointer, ha], by simp, by decide⟩
  · refine ⟨toHex a, by simp [fmtPointer, ha], ?_, ?_⟩
    · match a, ha with
      | m + 1, _ => rw [toHex]; simp
    · intro d hd
      rcases toHex_mem_hexDigitByte a d hd with ⟨k, hk, rfl⟩
      exact hexDigitByte_isHex k hk

/-- C8: a slot holding any tag outside Number, String, Boolean, Nil, None
(the catch-all tags: table, function, userdata, thread, lightuserdata) renders
as `[<i>] <quote><type-name><quote> = ` followed by `0x` and at least one
lowercase hex digit of the slot's raw pointer. -/
theorem other_renders_pointer_hex (l : LuaState) (i : Nat) (t : OtherTag)
    (a : Nat) (h : stackSlot l i = some (Slot.raw t a)) :
    slotLabel l i = asciiBytes ("[" ++ toString i ++ "] ") ++ [39]
        ++ typeNameBytes t.toLuaType ++ [39] ++ asciiBytes " = " ∧
    ∃ ds, valueText l i = some ([48, 120] ++ ds) ∧ ds ≠ [] ∧
      ∀ d ∈ ds, isHexDigitByte d = true := by
  have ht : lua_type l i = t.toLuaType := by simp [lua_type, h]
  have hp : lua_topointer l i = a := by simp [lua_topointer, h]
  constructor
  · simp [slotLabel, luaL_typename, ht]
  · rcases fmtPointer_shape a with ⟨ds, hds, hne, hall⟩
    refine ⟨ds, ?_, hne, hall⟩
    cases t <;> simp [valueText, ht, OtherTag.toLuaType, hp, hds]

/-- Witness for C8: a one-slot stack holding a table at address 0x213542. -/
theorem other_renders_pointer_hex_witness :
    slotLabel [Slot.raw OtherTag.table 2176322] 1
        = asciiBytes ("[" ++ toString 1 ++ "] ") ++ [39]
            ++ typeNameBytes OtherTag.table.toLuaType ++ [39] ++ asciiBytes " = " ∧
    ∃ ds, valueText [Slot.raw OtherTag.table 2176322] 1
        = some ([48, 120] ++ ds) ∧ ds ≠ [] ∧
      ∀ d ∈ ds, isHexDigitByte d = true :=
  other_renders_pointer_hex [Slot.raw OtherTag.table 2176322] 1
    OtherTag.table 2176322 rfl

/-- C9: a slot whose tag is Boolean renders `true` exactly when the
engine's boolean accessor returns the integer 1, and `false` for every
other returned integer (including nonzero values other than 1). -/
theorem bool_render_eq_one (l : LuaState) (i : Nat) (n : Int)
    (h : stackSlot l i = some (Slot.boolean n)) :
    (n = 1 → valueText l i = some (asciiBytes "true")) ∧
    (n ≠ 1 → valueText l i = some (asciiBytes "false")) := by
  have ht : lua_type l i = LuaType.bool := by simp [lua_type, h]
  have hb : lua_toboolean l i = n := by simp [lua_toboolean, h]
  constructor <;> intro hn <;> simp [valueText, ht, hb, hn]

/-- Witness for C9: the accessor returning 1 renders `true`; returning 2
(nonzero but not 1) renders `false`. -/
theorem bool_render_eq_one_witness :
    valueText [Slot.boolean 1] 1 = some (asciiBytes "true") ∧
    valueText [Slot.boolean 2] 1 = some (asciiBytes "false") :=
  ⟨(bool_render_eq_one [Slot.boolean 1] 1 1 rfl).1 rfl,
   (bool_render_eq_one [Slot.boolean 2] 1 2 rfl).2 (by decide)⟩

theorem dumpFrom_isOk (l : LuaState) (idxs : List Nat) :
    ∀ buf r, dumpFrom l buf idxs = some r → r.isOk = true := by
  induction idxs with
  | nil =>
    intro buf r h
    simp [dumpFrom] at h
    simp [← h, Except.isOk, Except.toBool]
  | cons i rest ih =>
    intro buf r h
    cases hv : valueText l i with
    | none => simp [dumpFrom, hv] at h
    | some v =>
      simp [dumpFrom, hv, writeBytes] at h
      exact ih _ r h

/-- C10: whenever `dump_stack` returns, it returns a success: the
formatting-failure error channel of its result type is unreachable, because
every write in the traversal targets the in-memory growable string, whose
write operation always succeeds. -/
theorem dump_stack_err_unreachable (l : LuaState) (r : Except Unit (List Nat))
    (h : dump_stack l = some r) : r.isOk = true :=
  dumpFrom_isOk l (List.range' 1 (lua_gettop l)) [] r h

/-- Witness for C10 at a one-slot stack holding nil. -/
theorem dump_stack_err_unreachable_witness :
    (Except.ok (lineOf 1 "nil" "nil") : Except Unit (List Nat)).isOk = true :=
  dump_stack_err_unreachable [Slot.nil] (Except.ok (lineOf 1 "nil" "nil")) rfl
